import Mathlib

/-!
Verification of the michelin crawl/reconciliation engine.

This file is a shallow embedding, in Lean 4, of the award-merge policy, the
bulk dataset ingestion path, the parser utilities and the fetch error handler
of the repository.  Go structs become Lean structures, the SQLite tables
become lists carried in a `Store` value, and every database operation becomes
a pure function from stores to stores.  Machine integers are modelled by
`Nat`/`Int` (no overflow is reachable in the modelled code paths), timestamps
(`created_at`/`updated_at`) and log statements are not modelled, and the
`NULL in_guide` repair code is unreachable here because `inGuide` is a total
`Bool` (the model only contains rows the modelled code itself writes, which
always carry a concrete boolean).
-/

namespace Michelin

/-! ## Data model

Mirrors `internal/models`: `Restaurant` (table `restaurants`, keyed by unique
`url`) and `RestaurantAward` (table `restaurant_awards`, unique on
`(restaurant_id, year)`).  Row ids of awards and the GORM timestamp columns
are omitted.  The distinction constants carry the award strings used
throughout the repository ("3 Stars", ..., "Selected Restaurants"). -/

def ThreeStars : String := "3 Stars"

def TwoStars : String := "2 Stars"

def OneStar : String := "1 Star"

def BibGourmand : String := "Bib Gourmand"

def SelectedRestaurants : String := "Selected Restaurants"

structure Restaurant where
  id : Nat
  url : String
  name : String
  description : String
  address : String
  location : String
  latitude : String
  longitude : String
  cuisine : String
  facilitiesAndServices : String
  phoneNumber : String
  websiteURL : String
  inGuide : Bool
deriving DecidableEq, Repr

structure RestaurantAward where
  restaurantID : Nat
  year : Int
  distinction : String
  price : String
  greenStar : Bool
  waybackURL : String
deriving DecidableEq, Repr

/-- The database state: the two tables plus the next auto-increment id for
`restaurants` (GORM assigns ids on `Create`). -/
structure Store where
  restaurants : List Restaurant
  awards : List RestaurantAward
  nextID : Nat
deriving DecidableEq, Repr

/-- Input bundle of `UpsertRestaurantWithAward` (the `storage.RestaurantData`
struct): restaurant fields, the award fields, and the `InGuide *bool`
pointer, modelled as `Option Bool`. -/
structure RestaurantData where
  url : String
  name : String
  description : String
  address : String
  location : String
  latitude : String
  longitude : String
  cuisine : String
  facilitiesAndServices : String
  phoneNumber : String
  websiteURL : String
  inGuide : Option Bool
  year : Int
  distinction : String
  price : String
  greenStar : Bool
  waybackURL : String
deriving DecidableEq, Repr

/-! ## Repository (storage.SQLiteRepository) -/

/-- The `WHERE restaurant_id = ? AND year = ?` predicate of `SaveAward`. -/
def awardKeyMatches (w : RestaurantAward) (rid : Nat) (y : Int) : Bool :=
  w.restaurantID == rid && w.year == y

/-- The `First` query of `SaveAward`: the first award row for the key. -/
def findAward (s : Store) (rid : Nat) (y : Int) : Option RestaurantAward :=
  s.awards.find? (fun w => awardKeyMatches w rid y)

/-- Effect of the `ON CONFLICT (restaurant_id, year) DO UPDATE` clause of
`SaveAward` on one stored row: a row with the conflicting key receives the
incoming `distinction`, `price`, `green_star` and `wayback_url`. -/
def applyAwardUpdate (a w : RestaurantAward) : RestaurantAward :=
  if awardKeyMatches w a.restaurantID a.year then
    { w with distinction := a.distinction, price := a.price,
             greenStar := a.greenStar, waybackURL := a.waybackURL }
  else w

/-- `SaveAward` (storage): upserts an award for `(restaurant_id, year)`.
If the existing row has no wayback reference (it came from a live scrape) and
the incoming one has a wayback reference (it is backfill), the write is
skipped; otherwise the row is inserted or updated in place. -/
def SaveAward (s : Store) (a : RestaurantAward) : Store :=
  match findAward s a.restaurantID a.year with
  | some existing =>
    if existing.waybackURL = "" ∧ a.waybackURL ≠ "" then s
    else { s with awards := s.awards.map (applyAwardUpdate a) }
  | none => { s with awards := s.awards ++ [a] }

/-- `FindRestaurantByURL`: first restaurant row whose `url` matches. -/
def FindRestaurantByURL (s : Store) (url : String) : Option Restaurant :=
  s.restaurants.find? (fun r => r.url == url)

/-- `FindRestaurantByWebsiteURL`: `WHERE website_url = ? AND website_url != ''`. -/
def FindRestaurantByWebsiteURL (s : Store) (websiteURL : String) : Option Restaurant :=
  s.restaurants.find? (fun r => r.websiteURL == websiteURL && r.websiteURL != "")

/-- Restaurant row created by `UpsertRestaurantWithAward` when `data.url` is
new; `in_guide` defaults to `true` when the `InGuide` pointer is nil. -/
def upsertNewRecord (s : Store) (data : RestaurantData) : Restaurant :=
  { id := s.nextID, url := data.url, name := data.name,
    description := data.description, address := data.address,
    location := data.location, latitude := data.latitude,
    longitude := data.longitude, cuisine := data.cuisine,
    facilitiesAndServices := data.facilitiesAndServices,
    phoneNumber := data.phoneNumber, websiteURL := data.websiteURL,
    inGuide := data.inGuide.getD true }

/-- Field assignments `UpsertRestaurantWithAward` performs on an existing
restaurant row before `Save` (the `url` and `id` keep their stored values). -/
def upsertUpdatedRecord (existing : Restaurant) (data : RestaurantData) : Restaurant :=
  { existing with
    name := data.name, description := data.description,
    address := data.address, location := data.location,
    latitude := data.latitude, longitude := data.longitude,
    cuisine := data.cuisine,
    facilitiesAndServices := data.facilitiesAndServices,
    phoneNumber := data.phoneNumber, websiteURL := data.websiteURL,
    inGuide := data.inGuide.getD true }

/-- Award record `UpsertRestaurantWithAward` hands to `SaveAward`. -/
def upsertAward (rid : Nat) (data : RestaurantData) : RestaurantAward :=
  { restaurantID := rid, year := data.year,
    distinction := data.distinction, price := data.price,
    greenStar := data.greenStar, waybackURL := data.waybackURL }

/-- `UpsertRestaurantWithAward`: creates or updates the restaurant row for
`data.url` (writing every descriptive field and `in_guide`, which defaults to
`true` when the `InGuide` pointer is nil), then upserts the award via
`SaveAward` — unless `data.Year ≤ 0`, in which case the award upsert is
skipped (a warning is logged) and only the restaurant write remains. -/
def UpsertRestaurantWithAward (s : Store) (data : RestaurantData) : Store :=
  match FindRestaurantByURL s data.url with
  | none =>
    let s1 : Store :=
      { s with restaurants := s.restaurants ++ [upsertNewRecord s data],
               nextID := s.nextID + 1 }
    if data.year ≤ 0 then s1
    else SaveAward s1 (upsertAward (upsertNewRecord s data).id data)
  | some existing =>
    let updatedList := s.restaurants.map
      (fun r => if r.id == existing.id then upsertUpdatedRecord existing data else r)
    let s1 : Store := { s with restaurants := updatedList }
    if data.year ≤ 0 then s1
    else SaveAward s1 (upsertAward existing.id data)

/-! ## Parser utilities (internal/parser)

`ParseDistinction` lowercases its input, strips the `&bull;`/`•` entities,
trims punctuation and whitespace, then tries the five case-insensitive
regular expressions in order.  The regex dialect is RE2: `\b` is an ASCII
word boundary, `\d`/`\s` are ASCII classes, `.` does not match a newline.
The matchers below decide existence of a match by brute force over starting
positions, which is extensionally the regex semantics for these
alternation-free, fixed-word patterns. -/

/-- ASCII branch of `strings.ToLower` (the distinction vocabulary is ASCII;
non-ASCII letters are irrelevant to every pattern and boundary below). -/
def toLowerChar (c : Char) : Char :=
  if 65 ≤ c.toNat ∧ c.toNat ≤ 90 then Char.ofNat (c.toNat + 32) else c

def lowerStr (l : List Char) : List Char := l.map toLowerChar

/-- First half of `decodeHTMLEntities`: `strings.ReplaceAll(s, "&bull;", "")`
(left-to-right, no rescan of the produced text). -/
def removeAmpBull : List Char → List Char
  | '&' :: 'b' :: 'u' :: 'l' :: 'l' :: ';' :: rest => removeAmpBull rest
  | c :: rest => c :: removeAmpBull rest
  | [] => []

/-- Second half of `decodeHTMLEntities`: `strings.ReplaceAll(s, "•", "")`. -/
def removeBullet (l : List Char) : List Char := l.filter (fun c => c ≠ '•')

/-- Cutset of the `strings.Trim(s, " .!?,;:-")` call in `ParseDistinction`. -/
def distCutset : List Char := [' ', '.', '!', '?', ',', ';', ':', '-']

def trimIn (cut : List Char) (l : List Char) : List Char :=
  ((l.dropWhile (fun c => cut.contains c)).reverse.dropWhile
    (fun c => cut.contains c)).reverse

/-- Whitespace recognised by `strings.TrimSpace` (ASCII plus the Latin-1
NEL/NBSP characters; no other Unicode space occurs in guide data). -/
def isGoSpace (c : Char) : Bool :=
  c == ' ' || (9 ≤ c.toNat && c.toNat ≤ 13) || c.toNat == 133 || c.toNat == 160

def trimSpace (l : List Char) : List Char :=
  ((l.dropWhile isGoSpace).reverse.dropWhile isGoSpace).reverse

/-- RE2 word character (`\w`, also the class deciding `\b`). -/
def isWordChar (c : Char) : Bool :=
  ('a' ≤ c && c ≤ 'z') || ('A' ≤ c && c ≤ 'Z') || ('0' ≤ c && c ≤ '9') || c == '_'

/-- Whether `w` occurs literally at position `i` of `s`. -/
def prefixAt (s : List Char) (i : Nat) (w : List Char) : Bool :=
  (s.drop i).take w.length == w

/-- Position `i` holds no word character (out-of-range counts as none, which
is the `\b` behaviour at the ends of the subject). -/
def noWordChar (s : List Char) (i : Nat) : Bool := !(isWordChar (s.getD i ' '))

/-- Occurrence of the whole word `w` at `i`: `\bw\b` (for `w` made of word
characters). -/
def boundedAt (s : List Char) (i : Nat) (w : List Char) : Bool :=
  prefixAt s i w && (i == 0 || noWordChar s (i - 1)) && noWordChar s (i + w.length)

/-- The gap `s[i..j)` consists of characters matched by `.` (anything except
a newline). -/
def gapOk (s : List Char) (i j : Nat) : Bool :=
  ((s.drop i).take (j - i)).all (fun c => c != '\n')

/-- Matcher for `\b(n₁|n₂)\b.*?\b(t₁|t₂)\b` with word alternatives `nums`
and `tails` (the shape of `re3Stars`, `re2Stars` and `re1Star`). -/
def reStarsMatch (nums tails : List (List Char)) (s : List Char) : Bool :=
  (List.range (s.length + 1)).any fun i =>
    nums.any fun w1 =>
      boundedAt s i w1 &&
      ((List.range (s.length + 1)).any fun j =>
        decide (i + w1.length ≤ j) && tails.any fun w2 =>
          boundedAt s j w2 && gapOk s (i + w1.length) j)

/-- `(?i)\b(three|3)\b.*?\bstars?\b` on the lowercased subject. -/
def re3Stars (s : List Char) : Bool :=
  reStarsMatch [String.toList "three", String.toList "3"]
    [String.toList "star", String.toList "stars"] s

/-- `(?i)\b(two|2)\b.*?\bstars?\b` on the lowercased subject. -/
def re2Stars (s : List Char) : Bool :=
  reStarsMatch [String.toList "two", String.toList "2"]
    [String.toList "star", String.toList "stars"] s

/-- `(?i)\b(one|1)\b.*?\bstar\b` on the lowercased subject. -/
def re1Star (s : List Char) : Bool :=
  reStarsMatch [String.toList "one", String.toList "1"] [String.toList "star"] s

/-- `(?i)\bbib\b`. -/
def reBibGourmand (s : List Char) : Bool :=
  (List.range (s.length + 1)).any fun i => boundedAt s i (String.toList "bib")

/-- RE2 `\s`: `[\t\n\f\r ]`. -/
def isRE2Space (c : Char) : Bool :=
  c == '\t' || c == '\n' || c == '\x0c' || c == '\r' || c == ' '

/-- Tail `restaurants?\b` of the selected-restaurants pattern at position
`p`. -/
def restaurantsTail (s : List Char) (p : Nat) : Bool :=
  (prefixAt s p (String.toList "restaurants") && noWordChar s (p + 11)) ||
  (prefixAt s p (String.toList "restaurant") && noWordChar s (p + 10))

/-- `(?i)\bselected\s*restaurants?\b|\bplate\b`. -/
def reSelected (s : List Char) : Bool :=
  ((List.range (s.length + 1)).any fun i =>
    prefixAt s i (String.toList "selected") && (i == 0 || noWordChar s (i - 1)) &&
    ((List.range (s.length + 1)).any fun k =>
      decide (i + 8 + k ≤ s.length) && ((s.drop (i + 8)).take k).all isRE2Space &&
      restaurantsTail s (i + 8 + k)))
  || ((List.range (s.length + 1)).any fun i => boundedAt s i (String.toList "plate"))

/-- Preprocessing chain of `ParseDistinction`: lowercase, decode the bullet
entities, trim the punctuation cutset, trim whitespace. -/
def cleanDistinction (input : String) : List Char :=
  trimSpace (trimIn distCutset (removeBullet (removeAmpBull (lowerStr input.toList))))

/-- `ParseDistinction` (parser.go): classify an award string against the
star/bib/selected patterns in order, defaulting to `SelectedRestaurants`. -/
def ParseDistinction (distinction : String) : String :=
  let s := cleanDistinction distinction
  if re3Stars s then ThreeStars
  else if re2Stars s then TwoStars
  else if re1Star s then OneStar
  else if reBibGourmand s then BibGourmand
  else if reSelected s then SelectedRestaurants
  else SelectedRestaurants

/-! ## Dataset processor (the bulk CSV ingestion path) -/

/-- One parsed row of a dataset CSV file (`HistoricalRestaurant`); `type` is
the cuisine column. -/
structure HistoricalRestaurant where
  name : String
  address : String
  location : String
  price : String
  type : String
  longitude : String
  latitude : String
  phoneNumber : String
  url : String
  websiteURL : String
  classification : String
deriving DecidableEq, Repr

/-- Per-file counters of the processor (`FileStats`; the name/date header
fields are omitted). -/
structure FileStats where
  restaurantsFound : Nat
  newRestaurants : Nat
  existingRestaurants : Nat
  awardsAdded : Nat
  awardsSkipped : Nat
  processingErrors : Nat
  restaurantsRemovedFromGuide : Nat
deriving DecidableEq, Repr

def initFileStats (rows : List HistoricalRestaurant) : FileStats :=
  { restaurantsFound := rows.length, newRestaurants := 0,
    existingRestaurants := 0, awardsAdded := 0, awardsSkipped := 0,
    processingErrors := 0, restaurantsRemovedFromGuide := 0 }

/-- `parsePrice` of the processor: dataset prices pass through, empty becomes
`"$"`. -/
def parsePrice (price : String) : String := if price = "" then "$" else price

/-- `parseClassification` of the processor delegates to `ParseDistinction`. -/
def parseClassification (classification : String) : String :=
  ParseDistinction classification

/-- `getCurrentGuideRestaurant`: find by website URL first, then by guide
URL.  The boolean it returns alongside is `r.inGuide` here; the repair path
for a SQL `NULL` value of `in_guide` cannot fire in this model because
`inGuide` is a total `Bool`. -/
def getCurrentGuideRestaurant (s : Store) (websiteURL michelinURL : String) :
    Option Restaurant :=
  match (if websiteURL ≠ "" then FindRestaurantByWebsiteURL s websiteURL else none) with
  | some r => some r
  | none => if michelinURL ≠ "" then FindRestaurantByURL s michelinURL else none

/-- Award record built by the dataset path (`models.RestaurantAward` literal
shared by `addHistoricalAward` and `createHistoricalRestaurant`): parsed
classification and price, no green star ("historical data doesn't have green
star info"), no wayback reference. -/
def datasetAward (rid : Nat) (row : HistoricalRestaurant) (year : Int) :
    RestaurantAward :=
  { restaurantID := rid, year := year,
    distinction := parseClassification row.classification,
    price := parsePrice row.price, greenStar := false, waybackURL := "" }

/-- `addHistoricalAward`: if an award for `(restaurant, year)` already exists
the row is skipped (counted in `awardsSkipped`), otherwise an award with the
parsed classification/price, no green star and no wayback reference is saved
via `SaveAward`.  The restaurant record is never touched. -/
def addHistoricalAward (s : Store) (st : FileStats) (existing : Restaurant)
    (row : HistoricalRestaurant) (year : Int)
    ( isRecent isCurrentlyInGuide : Bool) : Store × FileStats :=
  match findAward s existing.id year with
  | some _ => (s, { st with awardsSkipped := st.awardsSkipped + 1 })
  | none =>
    (SaveAward s (datasetAward existing.id row year),
     { st with awardsAdded := st.awardsAdded + 1 })

/-- Restaurant record created by `createHistoricalRestaurant` for a row not
yet in the store: `InGuide` true for a recent file, false for a historical
one, with placeholder latitude/longitude/cuisine for missing fields. -/
def newDatasetRestaurant (s : Store) (row : HistoricalRestaurant)
    ( isRecent : Bool) : Restaurant :=
  { id := s.nextID, url := row.url, name := row.name,
    description :=
      if isRecent then "Restaurant from current dataset"
      else "Restaurant from historical dataset",
    address := row.address, location := row.location,
    latitude := if row.latitude = "" then "0.0" else row.latitude,
    longitude := if row.longitude = "" then "0.0" else row.longitude,
    cuisine := if row.type = "" then "Unknown" else row.type,
    facilitiesAndServices := "", phoneNumber := row.phoneNumber,
    websiteURL := row.websiteURL, inGuide := isRecent }

/-- `createHistoricalRestaurant`: double-check by URL (falling back to
`addHistoricalAward` when the row exists after all), otherwise create the
restaurant — `InGuide` true for a recent file, false for a historical one,
with placeholder latitude/longitude/cuisine — and save its award. -/
def createHistoricalRestaurant (s : Store) (st : FileStats)
    (row : HistoricalRestaurant) (year : Int) ( isRecent : Bool) :
    Store × FileStats :=
  match FindRestaurantByURL s row.url with
  | some existing =>
    addHistoricalAward s { st with existingRestaurants := st.existingRestaurants + 1 }
      existing row year isRecent existing.inGuide
  | none =>
    let newRestaurant := newDatasetRestaurant s row isRecent
    let s1 : Store :=
      { s with restaurants := s.restaurants ++ [newRestaurant],
               nextID := s.nextID + 1 }
    (SaveAward s1 (datasetAward newRestaurant.id row year),
     { st with awardsAdded := st.awardsAdded + 1 })

/-- `processHistoricalRestaurant`: route one CSV row to the existing- or
new-restaurant path, updating the per-file counters. -/
def processHistoricalRestaurant (s : Store) (st : FileStats)
    (row : HistoricalRestaurant) (year : Int) ( isRecent : Bool) :
    Store × FileStats :=
  match getCurrentGuideRestaurant s row.websiteURL row.url with
  | some current =>
    addHistoricalAward s { st with existingRestaurants := st.existingRestaurants + 1 }
      current row year isRecent current.inGuide
  | none =>
    createHistoricalRestaurant s { st with newRestaurants := st.newRestaurants + 1 }
      row year isRecent

/-- The `restaurantsInCSV` tracking set of `processDatasetCSVFile`: every
non-empty website URL and guide URL of the file's rows. -/
def inCSVKeys (rows : List HistoricalRestaurant) : List String :=
  rows.foldl (fun acc row =>
    let acc1 := if row.websiteURL ≠ "" then acc ++ [row.websiteURL] else acc
    if row.url ≠ "" then acc1 ++ [row.url] else acc1) []

/-- Membership test of `updateMissingRestaurants`: website URL first, guide
URL as fallback. -/
def restaurantInCSV (r : Restaurant) (keys : List String) : Bool :=
  (r.websiteURL != "" && keys.contains r.websiteURL) ||
  (r.url != "" && keys.contains r.url)

/-- The `restaurantsToUpdate` batch of `updateMissingRestaurants`: ids of
the restaurants currently marked in-guide that the CSV does not mention. -/
def missingGuideIds (s : Store) (keys : List String) : List Nat :=
  (s.restaurants.filter (fun r => r.inGuide && !restaurantInCSV r keys)).map
    (fun r => r.id)

/-- `updateMissingRestaurants` (recent files only): batch-collect the ids of
in-guide restaurants absent from the CSV and set their `in_guide` to false
with one `UPDATE ... WHERE id IN (...)`. -/
def updateMissingRestaurants (s : Store) (st : FileStats) (keys : List String) :
    Store × FileStats :=
  let toUpdate := missingGuideIds s keys
  let flagged := s.restaurants.map
    (fun r => if toUpdate.contains r.id then { r with inGuide := false } else r)
  let bumped := st.restaurantsRemovedFromGuide + toUpdate.length
  if toUpdate.isEmpty then (s, st)
  else ({ s with restaurants := flagged }, { st with restaurantsRemovedFromGuide := bumped })

/-- `processDatasetCSVFile` on already-parsed rows: phase 1 processes each
row in order (tracking the CSV keys when the file is recent), phase 2 runs
the missing-restaurant post-pass for recent files only.  `isRecent` is the
file classification computed by `isRecentDataset` (file date within one
month of processing time); the per-file row limit (testing only) is not
modelled. -/
def processDatasetCSVFile (s : Store) (rows : List HistoricalRestaurant)
    (year : Int) ( isRecent : Bool) : Store × FileStats :=
  let keys := if isRecent then inCSVKeys rows else []
  let p := rows.foldl
    (fun acc row => processHistoricalRestaurant acc.1 acc.2 row year isRecent)
    (s, initFileStats rows)
  if isRecent then updateMissingRestaurants p.1 p.2 keys else p

/-! ## Live crawl path (scraper.setupDetailHandlers) -/

/-- Modelled from the spec: the Detail Extractor (`extractRestaurantData`,
absent from the source tree — only its call sites are present) produces a
fact with name, address, description, cuisine, phone, website, facilities,
lat/lon, distinction, price, green-star flag and published year; it carries
no in-guide field, so facts of the live crawl reach
`UpsertRestaurantWithAward` with the `InGuide` pointer nil. -/
def isLiveScrapeFact (d : RestaurantData) : Prop := d.inGuide = none

/-- Persistence effect of `setupDetailHandlers`: each extracted detail-page
fact is applied to the store through `UpsertRestaurantWithAward`, in arrival
order. -/
def processDetailPages (s : Store) (facts : List RestaurantData) : Store :=
  facts.foldl UpsertRestaurantWithAward s

/-! ## File dates and chronological ordering

`time.Time` values are modelled as `Nat` through the order-isomorphic
encoding `y * 10000 + m * 100 + d` of a calendar date; a file's modification
time is supplied already encoded. -/

structure DatasetFile where
  path : String
  modTime : Nat
deriving DecidableEq, Repr

def charDigitVal (c : Char) : Nat := c.toNat - 48

/-- Match of the regex `(\d{4})-(\d{2})-(\d{2})` anchored at the head of the
list (the tail beyond the ten pattern characters is arbitrary). -/
def matchDateAt : List Char → Option (Nat × Nat × Nat)
  | y1 :: y2 :: y3 :: y4 :: '-' :: m1 :: m2 :: '-' :: d1 :: d2 :: _ =>
    if y1.isDigit && y2.isDigit && y3.isDigit && y4.isDigit &&
       m1.isDigit && m2.isDigit && d1.isDigit && d2.isDigit then
      some (((charDigitVal y1 * 10 + charDigitVal y2) * 10 + charDigitVal y3) * 10
              + charDigitVal y4,
            charDigitVal m1 * 10 + charDigitVal m2,
            charDigitVal d1 * 10 + charDigitVal d2)
    else none
  | _ => none

/-- Leftmost match of the date pattern (`FindStringSubmatch`). -/
def findDatePattern : List Char → Option (Nat × Nat × Nat)
  | [] => none
  | c :: cs =>
    match matchDateAt (c :: cs) with
    | some r => some r
    | none => findDatePattern cs

def isLeapYear (y : Nat) : Bool := y % 4 == 0 && (y % 100 != 0 || y % 400 == 0)

def daysInMonth (y m : Nat) : Nat :=
  if m == 2 then (if isLeapYear y then 29 else 28)
  else if m == 4 || m == 6 || m == 9 || m == 11 then 30
  else 31

/-- Calendar validity enforced by `time.Parse("2006-01-02", ...)`. -/
def validDate (y m d : Nat) : Bool := 1 ≤ m && m ≤ 12 && 1 ≤ d && d ≤ daysInMonth y m

def encodeDate (y m d : Nat) : Nat := y * 10000 + m * 100 + d

/-- `ParseDateFromFilenameWithFallback`: the first `YYYY-MM-DD` pattern of
the filename when it parses as a real date, otherwise the file's
modification time. -/
def ParseDateFromFilenameWithFallback (f : DatasetFile) : Nat :=
  match findDatePattern f.path.toList with
  | some (y, m, d) => if validDate y m d then encodeDate y m d else f.modTime
  | none => f.modTime

/-- `sortFilesByDate`: ascending by extracted date.  `sort.Slice` with the
strict `Before` comparator is modelled by a merge sort on the non-strict
order, which produces the same list whenever the dates are distinct (the
only case the comparator determines). -/
def sortFilesByDate (files : List DatasetFile) : List DatasetFile :=
  files.mergeSort (fun a b =>
    decide (ParseDateFromFilenameWithFallback a ≤ ParseDateFromFilenameWithFallback b))

/-! ## Fetch error handler (scraper.createErrorHandler, webClient.ClearCache) -/

structure ScraperConfig where
  maxRetry : Nat
  delay : Nat
deriving DecidableEq, Repr

/-- Outcome of one invocation of the collector's error handler. -/
inductive ErrorDecision where
  | retry (clearedCache : Bool) (backoff : Nat) (nextAttempt : Nat)
  | skip
  | abandon (attempts : Nat)
deriving DecidableEq, Repr

/-- One second in the duration unit (nanoseconds), `time.Second`. -/
def second : Nat := 1000000000

/-- Decision logic of `createErrorHandler`, as a function of the response
status, the already-visited error condition and the per-request attempt
counter (carried in the request context, starting at 1).  HTTP 403 retries
with exponential backoff `attempt² × 8s` after clearing the cache; an
already-visited error is skipped; any other failure retries with linear
backoff `attempt × Delay` after clearing the cache; both retry paths give up
once `attempt` reaches `MaxRetry`. -/
def createErrorHandler (cfg : ScraperConfig) (statusCode : Nat)
    (alreadyVisited : Bool) (attempt : Nat) : ErrorDecision :=
  if statusCode == 403 then
    (if attempt < cfg.maxRetry then
      ErrorDecision.retry true (attempt * attempt * 8 * second) (attempt + 1)
     else ErrorDecision.abandon attempt)
  else if alreadyVisited then ErrorDecision.skip
  else if attempt < cfg.maxRetry then
    ErrorDecision.retry true (attempt * cfg.delay) (attempt + 1)
  else ErrorDecision.abandon attempt

/-- `ClearCache` drops the cached response stored for a URL (the cache is
keyed by a hash of the URL; the hash is injective on the URLs of one run, so
the model keys directly by URL). -/
def ClearCache (cache : List (String × String)) (url : String) :
    List (String × String) :=
  cache.filter (fun e => e.1 != url)

/-- Primary-key discipline the database enforces on `restaurants`: ids are
unique and below the auto-increment counter. -/
def WellFormed (s : Store) : Prop :=
  (∀ r ∈ s.restaurants, r.id < s.nextID) ∧
  (s.restaurants.map (fun r => r.id)).Nodup

/-! ## Lemmas about the award merge policy -/

theorem awardKeyMatches_applyAwardUpdate (a w : RestaurantAward) (rid : Nat)
    (y : Int) : awardKeyMatches (applyAwardUpdate a w) rid y = awardKeyMatches w rid y := by
  unfold applyAwardUpdate
  split <;> rfl

theorem applyAwardUpdate_self (a : RestaurantAward) : applyAwardUpdate a a = a := by
  simp [applyAwardUpdate, awardKeyMatches]

theorem applyAwardUpdate_of_no_match (a w : RestaurantAward)
    (h : awardKeyMatches w a.restaurantID a.year = false) :
    applyAwardUpdate a w = w := by
  simp [applyAwardUpdate, h]

theorem applyAwardUpdate_idem (a w : RestaurantAward) :
    applyAwardUpdate a (applyAwardUpdate a w) = applyAwardUpdate a w := by
  by_cases h : awardKeyMatches w a.restaurantID a.year = true
  · simp [applyAwardUpdate, h]
  · simp [applyAwardUpdate, h]

theorem SaveAward_keeps_restaurants (s : Store) (a : RestaurantAward) :
    (SaveAward s a).restaurants = s.restaurants ∧ (SaveAward s a).nextID = s.nextID := by
  unfold SaveAward
  cases findAward s a.restaurantID a.year with
  | none => exact ⟨rfl, rfl⟩
  | some ex => constructor <;> (split <;> (first | rfl | (split <;> rfl)))

theorem findAward_insert (s : Store) (a : RestaurantAward)
    (h : findAward s a.restaurantID a.year = none) :
    findAward (SaveAward s a) a.restaurantID a.year = some a := by
  unfold SaveAward
  rw [h]
  unfold findAward at h ⊢
  simp only [List.find?_append, h, Option.none_or]
  simp [List.find?, awardKeyMatches]

theorem findAward_update (s : Store) (a ex : RestaurantAward)
    (h : findAward s a.restaurantID a.year = some ex) :
    ({ s with awards := s.awards.map (applyAwardUpdate a) } : Store).awards.find?
      (fun w => awardKeyMatches w a.restaurantID a.year) = some (applyAwardUpdate a ex) := by
  unfold findAward at h
  simp only [List.find?_map]
  have hfun : ((fun w => awardKeyMatches w a.restaurantID a.year) ∘ applyAwardUpdate a)
      = fun w => awardKeyMatches w a.restaurantID a.year := by
    funext w
    exact awardKeyMatches_applyAwardUpdate a w a.restaurantID a.year
  rw [hfun, h]
  rfl

theorem SaveAward_skip (s : Store) (a ex : RestaurantAward)
    (h : findAward s a.restaurantID a.year = some ex)
    (hsk : ex.waybackURL = "" ∧ a.waybackURL ≠ "") : SaveAward s a = s := by
  unfold SaveAward
  rw [h]
  exact if_pos hsk

theorem SaveAward_found_update (s : Store) (a ex : RestaurantAward)
    (h : findAward s a.restaurantID a.year = some ex)
    (hns : ¬(ex.waybackURL = "" ∧ a.waybackURL ≠ "")) :
    SaveAward s a = { s with awards := s.awards.map (applyAwardUpdate a) } := by
  unfold SaveAward
  rw [h]
  exact if_neg hns

theorem SaveAward_insert_eq (s : Store) (a : RestaurantAward)
    (h : findAward s a.restaurantID a.year = none) :
    SaveAward s a = { s with awards := s.awards ++ [a] } := by
  unfold SaveAward
  rw [h]

theorem store_map_noop (s : Store) (a : RestaurantAward)
    (h : ∀ w ∈ s.awards, applyAwardUpdate a w = w) :
    ({ s with awards := s.awards.map (applyAwardUpdate a) } : Store) = s := by
  have hm : s.awards.map (applyAwardUpdate a) = s.awards := by
    calc s.awards.map (applyAwardUpdate a) = s.awards.map id := List.map_congr_left h
    _ = s.awards := List.map_id s.awards
  rw [hm]

theorem SaveAward_idem (s : Store) (a : RestaurantAward) :
    SaveAward (SaveAward s a) a = SaveAward s a := by
  cases h : findAward s a.restaurantID a.year with
  | none =>
    have hins := SaveAward_insert_eq s a h
    have hf : findAward (SaveAward s a) a.restaurantID a.year = some a :=
      findAward_insert s a h
    rw [SaveAward_found_update (SaveAward s a) a a hf (fun hc => hc.2 hc.1), hins]
    apply store_map_noop
    intro w hw
    rcases List.mem_append.mp hw with hw | hw
    · apply applyAwardUpdate_of_no_match
      have hnone : ∀ x ∈ s.awards, ¬(awardKeyMatches x a.restaurantID a.year = true) :=
        List.find?_eq_none.mp h
      simpa using hnone w hw
    · rw [List.mem_singleton.mp hw]
      exact applyAwardUpdate_self a
  | some ex =>
    by_cases hsk : ex.waybackURL = "" ∧ a.waybackURL ≠ ""
    · rw [SaveAward_skip s a ex h hsk, SaveAward_skip s a ex h hsk]
    · have hupd := SaveAward_found_update s a ex h hsk
      have hf : findAward (SaveAward s a) a.restaurantID a.year
          = some (applyAwardUpdate a ex) := by
        rw [hupd]
        exact findAward_update s a ex h
      have hfind : List.find? (fun w => awardKeyMatches w a.restaurantID a.year) s.awards
          = some ex := h
      have hkey : awardKeyMatches ex a.restaurantID a.year = true :=
        @List.find?_some _ (fun w => awardKeyMatches w a.restaurantID a.year) ex _ hfind
      have hwb : (applyAwardUpdate a ex).waybackURL = a.waybackURL := by
        simp [applyAwardUpdate, hkey]
      have hsk2 : ¬((applyAwardUpdate a ex).waybackURL = "" ∧ a.waybackURL ≠ "") := by
        rw [hwb]
        exact fun hc => hc.2 hc.1
      rw [SaveAward_found_update (SaveAward s a) a (applyAwardUpdate a ex) hf hsk2, hupd]
      apply store_map_noop
      intro w hw
      rcases List.mem_map.mp hw with ⟨w0, _, rfl⟩
      exact applyAwardUpdate_idem a w0

theorem addHistoricalAward_of_found (s : Store) (st : FileStats) (r : Restaurant)
    (row : HistoricalRestaurant) (y : Int) (rec ig : Bool) (ex : RestaurantAward)
    (h : findAward s r.id y = some ex) :
    addHistoricalAward s st r row y rec ig
      = (s, { st with awardsSkipped := st.awardsSkipped + 1 }) := by
  unfold addHistoricalAward
  rw [h]

theorem addHistoricalAward_of_none (s : Store) (st : FileStats) (r : Restaurant)
    (row : HistoricalRestaurant) (y : Int) (rec ig : Bool)
    (h : findAward s r.id y = none) :
    addHistoricalAward s st r row y rec ig
      = (SaveAward s (datasetAward r.id row y),
         { st with awardsAdded := st.awardsAdded + 1 }) := by
  unfold addHistoricalAward
  rw [h]

/-! ## Claim theorems: the merge policy -/

/-- C1: once an award row for (R, Y) exists with scrape provenance (empty
wayback reference), a subsequent backfill fact (non-empty wayback reference)
for (R, Y) applied through `SaveAward` leaves the store — in particular the
row's distinction, price and green-star flag — unchanged. -/
theorem saveAward_scrape_wins (s : Store) (a ex : RestaurantAward)
    (hfind : findAward s a.restaurantID a.year = some ex)
    (hscrape : ex.waybackURL = "") (hback : a.waybackURL ≠ "") :
    SaveAward s a = s :=
  SaveAward_skip s a ex hfind ⟨hscrape, hback⟩

/-- Witness for C1 at a concrete store: a 2024 award saved by the live
scrape survives a 2024 backfill fact carrying a different distinction. -/
theorem saveAward_scrape_wins_witness :
    findAward ⟨[], [⟨1, 2024, "1 Star", "$$", false, ""⟩], 2⟩ 1 2024
        = some ⟨1, 2024, "1 Star", "$$", false, ""⟩ ∧
    SaveAward ⟨[], [⟨1, 2024, "1 Star", "$$", false, ""⟩], 2⟩
        ⟨1, 2024, "Bib Gourmand", "$", false, "https://web.archive.org/web/2019/x"⟩
      = ⟨[], [⟨1, 2024, "1 Star", "$$", false, ""⟩], 2⟩ :=
  ⟨by decide,
   saveAward_scrape_wins ⟨[], [⟨1, 2024, "1 Star", "$$", false, ""⟩], 2⟩
     ⟨1, 2024, "Bib Gourmand", "$", false, "https://web.archive.org/web/2019/x"⟩
     ⟨1, 2024, "1 Star", "$$", false, ""⟩ (by decide) (by decide) (by decide)⟩

/-- C2: applying the identical award fact twice is idempotent: a second
`SaveAward` of the same fact leaves the store unchanged, and a second
`addHistoricalAward` of the same dataset fact leaves the store, the award
row count and the processing-error counter unchanged. -/
theorem mergePolicy_idempotent :
    (∀ (s : Store) (a : RestaurantAward), SaveAward (SaveAward s a) a = SaveAward s a) ∧
    (∀ (s : Store) (st : FileStats) (r : Restaurant) (row : HistoricalRestaurant)
        (y : Int) (rec ig : Bool),
      (addHistoricalAward (addHistoricalAward s st r row y rec ig).1
          (addHistoricalAward s st r row y rec ig).2 r row y rec ig).1
        = (addHistoricalAward s st r row y rec ig).1 ∧
      (addHistoricalAward (addHistoricalAward s st r row y rec ig).1
          (addHistoricalAward s st r row y rec ig).2 r row y rec ig).1.awards.length
        = (addHistoricalAward s st r row y rec ig).1.awards.length ∧
      (addHistoricalAward (addHistoricalAward s st r row y rec ig).1
          (addHistoricalAward s st r row y rec ig).2 r row y rec ig).2.processingErrors
        = (addHistoricalAward s st r row y rec ig).2.processingErrors) := by
  refine ⟨SaveAward_idem, ?_⟩
  intro s st r row y rec ig
  cases h : findAward s r.id y with
  | some ex =>
    rw [addHistoricalAward_of_found s st r row y rec ig ex h]
    rw [addHistoricalAward_of_found s _ r row y rec ig ex h]
    exact ⟨rfl, rfl, rfl⟩
  | none =>
    rw [addHistoricalAward_of_none s st r row y rec ig h]
    have hf : findAward (SaveAward s (datasetAward r.id row y)) r.id y
        = some (datasetAward r.id row y) :=
      findAward_insert s (datasetAward r.id row y) h
    rw [addHistoricalAward_of_found _ _ r row y rec ig _ hf]
    exact ⟨rfl, rfl, rfl⟩

/-- C3 counterexample: the claim fails on the dataset ingestion path.  The
store holds a 2019 award with backfill provenance (non-empty wayback
reference); an incoming dataset fact for the same year with a different
classification is not accepted — `addHistoricalAward` skips any year that
already has an award, so nothing is overwritten. -/
theorem datasetPath_skips_existing_backfill_year :
    (addHistoricalAward
        ⟨[⟨1, "https://guide/r1", "R1", "", "", "", "", "", "", "", "", "w1", true⟩],
         [⟨1, 2019, "1 Star", "$$", false, "https://web.archive.org/web/2019"⟩], 2⟩
        (initFileStats [])
        ⟨1, "https://guide/r1", "R1", "", "", "", "", "", "", "", "", "w1", true⟩
        ⟨"R1", "", "", "65EUR", "", "", "", "", "https://guide/r1", "w1",
         "Bib Gourmand award"⟩
        2019 true true).1
      = ⟨[⟨1, "https://guide/r1", "R1", "", "", "", "", "", "", "", "", "w1", true⟩],
         [⟨1, 2019, "1 Star", "$$", false, "https://web.archive.org/web/2019"⟩], 2⟩ ∧
    parseClassification "Bib Gourmand award" = "Bib Gourmand" ∧
    ("Bib Gourmand" : String) ≠ "1 Star" ∧
    ("https://web.archive.org/web/2019" : String) ≠ "" := by
  refine ⟨?_, by decide, by decide, by decide⟩
  decide

/-- C3 (amended): for a slot whose existing award has backfill provenance,
an incoming fact applied through `SaveAward` — either provenance — is
accepted and overwrites the stored distinction, price, green-star flag and
wayback reference, without changing the number of award rows.  (Facts
arriving through the bulk dataset path never reach this case: they are
skipped whenever any award exists for the year.) -/
theorem saveAward_overwrites_backfill_slot (s : Store) (a ex : RestaurantAward)
    (hfind : findAward s a.restaurantID a.year = some ex)
    (hback : ex.waybackURL ≠ "") :
    (SaveAward s a).awards.length = s.awards.length ∧
    ∃ w ∈ (SaveAward s a).awards,
      w.restaurantID = a.restaurantID ∧ w.year = a.year ∧
      w.distinction = a.distinction ∧ w.price = a.price ∧
      w.greenStar = a.greenStar ∧ w.waybackURL = a.waybackURL := by
  have hns : ¬(ex.waybackURL = "" ∧ a.waybackURL ≠ "") := fun hc => hback hc.1
  rw [SaveAward_found_update s a ex hfind hns]
  have hfind2 : List.find? (fun w => awardKeyMatches w a.restaurantID a.year) s.awards
      = some ex := hfind
  have hkey : awardKeyMatches ex a.restaurantID a.year = true :=
    @List.find?_some _ (fun w => awardKeyMatches w a.restaurantID a.year) ex _ hfind2
  have hkey2 : ex.restaurantID = a.restaurantID ∧ ex.year = a.year := by
    simpa [awardKeyMatches] using hkey
  constructor
  · simp
  · have hmem : ex ∈ s.awards :=
      @List.mem_of_find?_eq_some _ (fun w => awardKeyMatches w a.restaurantID a.year)
        ex _ hfind2
    refine ⟨applyAwardUpdate a ex, List.mem_map_of_mem _ hmem, ?_⟩
    simp [applyAwardUpdate, hkey, hkey2.1, hkey2.2]

/-- Witness for the amended C3: a backfill-provenance 2019 row is
overwritten by an incoming live fact for 2019. -/
theorem saveAward_overwrites_backfill_slot_witness :
    (SaveAward ⟨[], [⟨1, 2019, "1 Star", "$", false, "wb"⟩], 1⟩
        ⟨1, 2019, "2 Stars", "$$", true, ""⟩).awards.length
      = ([⟨1, 2019, "1 Star", "$", false, "wb"⟩] : List RestaurantAward).length ∧
    ∃ w ∈ (SaveAward ⟨[], [⟨1, 2019, "1 Star", "$", false, "wb"⟩], 1⟩
        ⟨1, 2019, "2 Stars", "$$", true, ""⟩).awards,
      w.restaurantID = 1 ∧ w.year = 2019 ∧ w.distinction = "2 Stars" ∧
      w.price = "$$" ∧ w.greenStar = true ∧ w.waybackURL = "" :=
  saveAward_overwrites_backfill_slot
    ⟨[], [⟨1, 2019, "1 Star", "$", false, "wb"⟩], 1⟩
    ⟨1, 2019, "2 Stars", "$$", true, ""⟩
    ⟨1, 2019, "1 Star", "$", false, "wb"⟩ (by decide) (by decide)

theorem upsert_restaurants_notFound (s : Store) (d : RestaurantData)
    (h : FindRestaurantByURL s d.url = none) :
    (UpsertRestaurantWithAward s d).restaurants
      = s.restaurants ++ [upsertNewRecord s d] := by
  unfold UpsertRestaurantWithAward
  rw [h]
  show (if d.year ≤ 0
      then ({ restaurants := s.restaurants ++ [upsertNewRecord s d],
              awards := s.awards, nextID := s.nextID + 1 } : Store)
      else SaveAward
        { restaurants := s.restaurants ++ [upsertNewRecord s d],
          awards := s.awards, nextID := s.nextID + 1 }
        (upsertAward (upsertNewRecord s d).id d)).restaurants
    = s.restaurants ++ [upsertNewRecord s d]
  split
  · rfl
  · rw [(SaveAward_keeps_restaurants _ _).1]

theorem upsert_restaurants_found (s : Store) (d : RestaurantData) (existing : Restaurant)
    (h : FindRestaurantByURL s d.url = some existing) :
    (UpsertRestaurantWithAward s d).restaurants
      = s.restaurants.map
          (fun r => if r.id == existing.id then upsertUpdatedRecord existing d else r) := by
  unfold UpsertRestaurantWithAward
  rw [h]
  show (if d.year ≤ 0
      then ({ restaurants :=
                s.restaurants.map (fun r =>
                  if r.id == existing.id then upsertUpdatedRecord existing d else r),
              awards := s.awards, nextID := s.nextID } : Store)
      else SaveAward
        { restaurants :=
            s.restaurants.map (fun r =>
              if r.id == existing.id then upsertUpdatedRecord existing d else r),
          awards := s.awards, nextID := s.nextID }
        (upsertAward existing.id d)).restaurants
    = s.restaurants.map
        (fun r => if r.id == existing.id then upsertUpdatedRecord existing d else r)
  split
  · rfl
  · rw [(SaveAward_keeps_restaurants _ _).1]

theorem upsert_awards_invalidYear (s : Store) (d : RestaurantData)
    (hy : d.year ≤ 0) : (UpsertRestaurantWithAward s d).awards = s.awards := by
  unfold UpsertRestaurantWithAward
  cases hf : FindRestaurantByURL s d.url with
  | none =>
    show (if d.year ≤ 0
        then ({ restaurants := s.restaurants ++ [upsertNewRecord s d],
                awards := s.awards, nextID := s.nextID + 1 } : Store)
        else SaveAward
          { restaurants := s.restaurants ++ [upsertNewRecord s d],
            awards := s.awards, nextID := s.nextID + 1 }
          (upsertAward (upsertNewRecord s d).id d)).awards
      = s.awards
    rw [if_pos hy]
  | some existing =>
    show (if d.year ≤ 0
        then ({ restaurants :=
                  s.restaurants.map (fun r =>
                    if r.id == existing.id then upsertUpdatedRecord existing d else r),
                awards := s.awards, nextID := s.nextID } : Store)
        else SaveAward
          { restaurants :=
              s.restaurants.map (fun r =>
                if r.id == existing.id then upsertUpdatedRecord existing d else r),
            awards := s.awards, nextID := s.nextID }
          (upsertAward existing.id d)).awards
      = s.awards
    rw [if_pos hy]

/-- C4: an incoming fact with year ≤ 0 never creates or updates an award
row — the award table is untouched — while the restaurant record itself is
still created or updated with the fact's fields. -/
theorem upsert_invalid_year_skips_award (s : Store) (data : RestaurantData)
    (h : data.year ≤ 0) :
    (UpsertRestaurantWithAward s data).awards = s.awards ∧
    ∃ r ∈ (UpsertRestaurantWithAward s data).restaurants,
      r.url = data.url ∧ r.name = data.name ∧ r.address = data.address ∧
      r.location = data.location ∧ r.cuisine = data.cuisine ∧
      r.phoneNumber = data.phoneNumber ∧ r.websiteURL = data.websiteURL ∧
      r.inGuide = data.inGuide.getD true := by
  refine ⟨upsert_awards_invalidYear s data h, ?_⟩
  cases hf : FindRestaurantByURL s data.url with
  | none =>
    rw [upsert_restaurants_notFound s data hf]
    exact ⟨_, List.mem_append_right _ (List.mem_singleton_self _),
      rfl, rfl, rfl, rfl, rfl, rfl, rfl, rfl⟩
  | some existing =>
    have hf2 : List.find? (fun r => r.url == data.url) s.restaurants = some existing := hf
    have hmem : existing ∈ s.restaurants :=
      @List.mem_of_find?_eq_some _ (fun r => r.url == data.url) existing _ hf2
    have hurl : existing.url = data.url := by
      have hb := @List.find?_some _ (fun r => r.url == data.url) existing _ hf2
      simpa using hb
    rw [upsert_restaurants_found s data existing hf]
    refine ⟨_, List.mem_map_of_mem _ hmem, ?_⟩
    simp [upsertUpdatedRecord, hurl]

/-- Witness for C4: a fact with year 0 updates the restaurant (name and
in-guide flag included) but adds no award row. -/
theorem upsert_invalid_year_skips_award_witness :
    (UpsertRestaurantWithAward
        ⟨[⟨1, "u", "Old", "", "", "", "", "", "", "", "", "", false⟩], [], 2⟩
        ⟨"u", "New", "d", "a", "l", "la", "lo", "c", "f", "p", "w",
         some true, 0, "1 Star", "$", false, ""⟩).awards = [] ∧
    ∃ r ∈ (UpsertRestaurantWithAward
        ⟨[⟨1, "u", "Old", "", "", "", "", "", "", "", "", "", false⟩], [], 2⟩
        ⟨"u", "New", "d", "a", "l", "la", "lo", "c", "f", "p", "w",
         some true, 0, "1 Star", "$", false, ""⟩).restaurants,
      r.url = "u" ∧ r.name = "New" ∧ r.address = "a" ∧ r.location = "l" ∧
      r.cuisine = "c" ∧ r.phoneNumber = "p" ∧ r.websiteURL = "w" ∧
      r.inGuide = (some true : Option Bool).getD true :=
  upsert_invalid_year_skips_award
    ⟨[⟨1, "u", "Old", "", "", "", "", "", "", "", "", "", false⟩], [], 2⟩
    ⟨"u", "New", "d", "a", "l", "la", "lo", "c", "f", "p", "w",
     some true, 0, "1 Star", "$", false, ""⟩ (by decide)

/-! ## Lemmas about the dataset ingestion path -/

theorem addHistoricalAward_store_frame (s : Store) (st : FileStats) (r : Restaurant)
    (row : HistoricalRestaurant) (y : Int) (rec ig : Bool) :
    (addHistoricalAward s st r row y rec ig).1.restaurants = s.restaurants ∧
    (addHistoricalAward s st r row y rec ig).1.nextID = s.nextID := by
  cases h : findAward s r.id y with
  | some ex =>
    rw [addHistoricalAward_of_found s st r row y rec ig ex h]
    exact ⟨rfl, rfl⟩
  | none =>
    rw [addHistoricalAward_of_none s st r row y rec ig h]
    exact SaveAward_keeps_restaurants s _

theorem createHistoricalRestaurant_of_found (s : Store) (st : FileStats)
    (row : HistoricalRestaurant) (y : Int) (rec : Bool) (ex : Restaurant)
    (h : FindRestaurantByURL s row.url = some ex) :
    createHistoricalRestaurant s st row y rec
      = addHistoricalAward s { st with existingRestaurants := st.existingRestaurants + 1 }
          ex row y rec ex.inGuide := by
  unfold createHistoricalRestaurant
  rw [h]

theorem createHistoricalRestaurant_of_none (s : Store) (st : FileStats)
    (row : HistoricalRestaurant) (y : Int) (rec : Bool)
    (h : FindRestaurantByURL s row.url = none) :
    createHistoricalRestaurant s st row y rec
      = (SaveAward
          { s with restaurants := s.restaurants ++ [newDatasetRestaurant s row rec],
                   nextID := s.nextID + 1 }
          (datasetAward s.nextID row y),
         { st with awardsAdded := st.awardsAdded + 1 }) := by
  unfold createHistoricalRestaurant
  rw [h]
  rfl

theorem processHistoricalRestaurant_of_found (s : Store) (st : FileStats)
    (row : HistoricalRestaurant) (y : Int) (rec : Bool) (cur : Restaurant)
    (h : getCurrentGuideRestaurant s row.websiteURL row.url = some cur) :
    processHistoricalRestaurant s st row y rec
      = addHistoricalAward s { st with existingRestaurants := st.existingRestaurants + 1 }
          cur row y rec cur.inGuide := by
  unfold processHistoricalRestaurant
  rw [h]

theorem processHistoricalRestaurant_of_none (s : Store) (st : FileStats)
    (row : HistoricalRestaurant) (y : Int) (rec : Bool)
    (h : getCurrentGuideRestaurant s row.websiteURL row.url = none) :
    processHistoricalRestaurant s st row y rec
      = createHistoricalRestaurant s { st with newRestaurants := st.newRestaurants + 1 }
          row y rec := by
  unfold processHistoricalRestaurant
  rw [h]

/-- One dataset row never mutates an existing restaurant row: the restaurant
table is either untouched or extended by exactly the freshly created
restaurant (whose id is the auto-increment counter). -/
theorem processRow_shape (s : Store) (st : FileStats) (row : HistoricalRestaurant)
    (y : Int) (rec : Bool) :
    ((processHistoricalRestaurant s st row y rec).1.restaurants = s.restaurants ∧
     (processHistoricalRestaurant s st row y rec).1.nextID = s.nextID) ∨
    ((processHistoricalRestaurant s st row y rec).1.restaurants
        = s.restaurants ++ [newDatasetRestaurant s row rec] ∧
     (newDatasetRestaurant s row rec).id = s.nextID ∧
     (processHistoricalRestaurant s st row y rec).1.nextID = s.nextID + 1) := by
  cases hg : getCurrentGuideRestaurant s row.websiteURL row.url with
  | some cur =>
    rw [processHistoricalRestaurant_of_found s st row y rec cur hg]
    exact Or.inl (addHistoricalAward_store_frame s _ cur row y rec cur.inGuide)
  | none =>
    rw [processHistoricalRestaurant_of_none s st row y rec hg]
    cases hf : FindRestaurantByURL s row.url with
    | some ex =>
      rw [createHistoricalRestaurant_of_found s _ row y rec ex hf]
      exact Or.inl (addHistoricalAward_store_frame s _ ex row y rec ex.inGuide)
    | none =>
      rw [createHistoricalRestaurant_of_none s _ row y rec hf]
      right
      dsimp only
      exact ⟨(SaveAward_keeps_restaurants _ _).1, rfl, (SaveAward_keeps_restaurants _ _).2⟩

/-- Phase 1 of a dataset file only ever appends restaurant rows. -/
theorem processRows_restaurants_append (rows : List HistoricalRestaurant)
    (y : Int) (rec : Bool) :
    ∀ (s : Store) (st : FileStats),
      ∃ new,
        ((rows.foldl
            (fun acc row => processHistoricalRestaurant acc.1 acc.2 row y rec)
            (s, st)).1).restaurants
          = s.restaurants ++ new := by
  induction rows with
  | nil =>
    intro s st
    exact ⟨[], (List.append_nil _).symm⟩
  | cons row rows ih =>
    intro s st
    simp only [List.foldl_cons]
    obtain ⟨new1, hnew1⟩ := ih (processHistoricalRestaurant s st row y rec).1
      (processHistoricalRestaurant s st row y rec).2
    rcases processRow_shape s st row y rec with ⟨hr, -⟩ | ⟨hr, -, -⟩
    · refine ⟨new1, ?_⟩
      calc ((rows.foldl
              (fun acc row => processHistoricalRestaurant acc.1 acc.2 row y rec)
              (processHistoricalRestaurant s st row y rec)).1).restaurants
          = (processHistoricalRestaurant s st row y rec).1.restaurants ++ new1 := hnew1
        _ = s.restaurants ++ new1 := by rw [hr]
    · refine ⟨[newDatasetRestaurant s row rec] ++ new1, ?_⟩
      calc ((rows.foldl
              (fun acc row => processHistoricalRestaurant acc.1 acc.2 row y rec)
              (processHistoricalRestaurant s st row y rec)).1).restaurants
          = (processHistoricalRestaurant s st row y rec).1.restaurants ++ new1 := hnew1
        _ = (s.restaurants ++ [newDatasetRestaurant s row rec]) ++ new1 := by rw [hr]
        _ = s.restaurants ++ ([newDatasetRestaurant s row rec] ++ new1) :=
          List.append_assoc _ _ _

/-- Phase 1 preserves the primary-key discipline. -/
theorem processRows_wf (rows : List HistoricalRestaurant) (y : Int) (rec : Bool) :
    ∀ (s : Store) (st : FileStats), WellFormed s →
      WellFormed ((rows.foldl
        (fun acc row => processHistoricalRestaurant acc.1 acc.2 row y rec)
        (s, st)).1) := by
  induction rows with
  | nil => intro s st h; exact h
  | cons row rows ih =>
    intro s st hwf
    simp only [List.foldl_cons]
    refine ih (processHistoricalRestaurant s st row y rec).1
      (processHistoricalRestaurant s st row y rec).2 ?_
    rcases processRow_shape s st row y rec with ⟨hr, hn⟩ | ⟨hr, hid, hn⟩
    · constructor
      · intro r hrm
        rw [hn]
        exact hwf.1 r (hr ▸ hrm)
      · rw [hr]
        exact hwf.2
    · constructor
      · intro r hrm
        rw [hn]
        rw [hr] at hrm
        rcases List.mem_append.mp hrm with hm | hm
        · exact Nat.lt_succ_of_lt (hwf.1 r hm)
        · rw [List.mem_singleton.mp hm, hid]
          exact Nat.lt_succ_self _
      · rw [hr, List.map_append]
        refine List.Nodup.append hwf.2 (by simp) ?_
        intro x hx hx2
        simp only [List.map_cons, List.map_nil, List.mem_singleton] at hx2
        rcases List.mem_map.mp hx with ⟨r, hrm, rfl⟩
        have hlt := hwf.1 r hrm
        rw [hx2, hid] at hlt
        exact Nat.lt_irrefl _ hlt

theorem updateMissing_of_empty (s : Store) (st : FileStats) (keys : List String)
    (h : (missingGuideIds s keys).isEmpty = true) :
    updateMissingRestaurants s st keys = (s, st) := by
  simp only [updateMissingRestaurants]
  rw [h]
  rfl

theorem updateMissing_of_nonempty (s : Store) (st : FileStats) (keys : List String)
    (h : (missingGuideIds s keys).isEmpty = false) :
    updateMissingRestaurants s st keys
      = ({ s with restaurants := s.restaurants.map (fun r =>
             if (missingGuideIds s keys).contains r.id then { r with inGuide := false }
             else r) },
         { st with restaurantsRemovedFromGuide :=
             st.restaurantsRemovedFromGuide + (missingGuideIds s keys).length }) := by
  simp only [updateMissingRestaurants]
  rw [h]
  rfl

/-! ## Claim theorems: InGuide maintenance by the dataset path -/

/-- C6: processing a historical (non-recent) dataset file never changes any
existing restaurant row — the restaurant table is only ever appended to, so
in particular no existing restaurant's `InGuide` value changes; only award
rows are added for existing restaurants. -/
theorem historicalFile_preserves_restaurants (s : Store)
    (rows : List HistoricalRestaurant) (y : Int) :
    ∃ new, (processDatasetCSVFile s rows y false).1.restaurants
      = s.restaurants ++ new :=
  processRows_restaurants_append rows y false s (initFileStats rows)

/-- C5: after a recent dataset file is fully processed, every restaurant
that was in-guide but is matched by none of the file's website/guide URLs is
flagged `InGuide = false` by the batch post-pass, while in-guide restaurants
that do appear in the file keep `InGuide = true`. -/
theorem recentFile_postPass_inGuide (s : Store) (rows : List HistoricalRestaurant)
    (y : Int) (hwf : WellFormed s) :
    (∀ r ∈ s.restaurants, r.inGuide = true →
       restaurantInCSV r (inCSVKeys rows) = false →
       ∃ q ∈ (processDatasetCSVFile s rows y true).1.restaurants,
         q.id = r.id ∧ q.inGuide = false) ∧
    (∀ r ∈ s.restaurants, r.inGuide = true →
       restaurantInCSV r (inCSVKeys rows) = true →
       ∃ q ∈ (processDatasetCSVFile s rows y true).1.restaurants,
         q.id = r.id ∧ q.inGuide = true) := by
  obtain ⟨new, hs1⟩ := processRows_restaurants_append rows y true s (initFileStats rows)
  have hwf1 := processRows_wf rows y true s (initFileStats rows) hwf
  have hform : (processDatasetCSVFile s rows y true)
      = updateMissingRestaurants
          ((rows.foldl
            (fun acc row => processHistoricalRestaurant acc.1 acc.2 row y true)
            (s, initFileStats rows)).1)
          ((rows.foldl
            (fun acc row => processHistoricalRestaurant acc.1 acc.2 row y true)
            (s, initFileStats rows)).2)
          (inCSVKeys rows) := rfl
  constructor
  · intro r hr hig hcsv
    have hmem1 : r ∈ ((rows.foldl
        (fun acc row => processHistoricalRestaurant acc.1 acc.2 row y true)
        (s, initFileStats rows)).1).restaurants := by
      rw [hs1]
      exact List.mem_append_left _ hr
    have hpred : (r.inGuide && !restaurantInCSV r (inCSVKeys rows)) = true := by
      rw [hig, hcsv]
      rfl
    have hfil : r ∈ ((rows.foldl
        (fun acc row => processHistoricalRestaurant acc.1 acc.2 row y true)
        (s, initFileStats rows)).1).restaurants.filter
          (fun r => r.inGuide && !restaurantInCSV r (inCSVKeys rows)) :=
      List.mem_filter.mpr ⟨hmem1, hpred⟩
    have hid : r.id ∈ missingGuideIds
        ((rows.foldl
          (fun acc row => processHistoricalRestaurant acc.1 acc.2 row y true)
          (s, initFileStats rows)).1) (inCSVKeys rows) :=
      List.mem_map_of_mem _ hfil
    have hne : (missingGuideIds
        ((rows.foldl
          (fun acc row => processHistoricalRestaurant acc.1 acc.2 row y true)
          (s, initFileStats rows)).1) (inCSVKeys rows)).isEmpty = false := by
      cases hemp : (missingGuideIds
          ((rows.foldl
            (fun acc row => processHistoricalRestaurant acc.1 acc.2 row y true)
            (s, initFileStats rows)).1) (inCSVKeys rows)).isEmpty
      · rfl
      · rw [List.isEmpty_iff.mp hemp] at hid
        exact absurd hid (List.not_mem_nil _)
    rw [hform, updateMissing_of_nonempty _ _ _ hne]
    exact ⟨_, List.mem_map_of_mem _ hmem1, by simp [hid], by simp [hid]⟩
  · intro r hr hig hcsv
    have hmem1 : r ∈ ((rows.foldl
        (fun acc row => processHistoricalRestaurant acc.1 acc.2 row y true)
        (s, initFileStats rows)).1).restaurants := by
      rw [hs1]
      exact List.mem_append_left _ hr
    rw [hform]
    cases hemp : (missingGuideIds
        ((rows.foldl
          (fun acc row => processHistoricalRestaurant acc.1 acc.2 row y true)
          (s, initFileStats rows)).1) (inCSVKeys rows)).isEmpty with
    | true =>
      rw [updateMissing_of_empty _ _ _ hemp]
      exact ⟨r, hmem1, rfl, hig⟩
    | false =>
      have hnotmem : r.id ∉ missingGuideIds
          ((rows.foldl
            (fun acc row => processHistoricalRestaurant acc.1 acc.2 row y true)
            (s, initFileStats rows)).1) (inCSVKeys rows) := by
        intro hidm
        rcases List.mem_map.mp hidm with ⟨r2, hr2fil, hr2id⟩
        have hr2mem := (List.mem_filter.mp hr2fil).1
        have hr2pred := (List.mem_filter.mp hr2fil).2
        have hr2eq : r2 = r :=
          List.inj_on_of_nodup_map hwf1.2 hr2mem hmem1 hr2id
        rw [hr2eq] at hr2pred
        rw [hig, hcsv] at hr2pred
        simp at hr2pred
      rw [updateMissing_of_nonempty _ _ _ hemp]
      exact ⟨_, List.mem_map_of_mem _ hmem1, by simp [hnotmem], by simp [hnotmem, hig]⟩

/-- Witness for C5: restaurant C (id 2, in guide) is absent from the recent
file listing only restaurant A, and ends up flagged out of the guide. -/
theorem recentFile_postPass_inGuide_witness :
    ∃ q ∈ (processDatasetCSVFile
        ⟨[⟨1, "https://g/a", "A", "", "", "", "", "", "", "", "", "wa", true⟩,
          ⟨2, "https://g/c", "C", "", "", "", "", "", "", "", "", "wc", true⟩], [], 3⟩
        [⟨"A", "", "", "", "", "", "", "", "https://g/a", "wa", "1 star"⟩]
        2025 true).1.restaurants,
      q.id = (⟨2, "https://g/c", "C", "", "", "", "", "", "", "", "", "wc", true⟩
        : Restaurant).id ∧ q.inGuide = false :=
  (recentFile_postPass_inGuide
      ⟨[⟨1, "https://g/a", "A", "", "", "", "", "", "", "", "", "wa", true⟩,
        ⟨2, "https://g/c", "C", "", "", "", "", "", "", "", "", "wc", true⟩], [], 3⟩
      [⟨"A", "", "", "", "", "", "", "", "https://g/a", "wa", "1 star"⟩]
      2025 ⟨by decide, by decide⟩).1
    ⟨2, "https://g/c", "C", "", "", "", "", "", "", "", "", "wc", true⟩
    (by decide) (by decide) (by decide)

/-! ## Claim theorems: the live crawl path and InGuide -/

theorem upsert_keeps_true (s : Store) (d : RestaurantData) (hd : d.inGuide = none)
    (idv : Nat) (h : ∃ r ∈ s.restaurants, r.id = idv ∧ r.inGuide = true) :
    ∃ q ∈ (UpsertRestaurantWithAward s d).restaurants, q.id = idv ∧ q.inGuide = true := by
  obtain ⟨r, hr, hid, hig⟩ := h
  cases hf : FindRestaurantByURL s d.url with
  | none =>
    rw [upsert_restaurants_notFound s d hf]
    exact ⟨r, List.mem_append_left _ hr, hid, hig⟩
  | some existing =>
    rw [upsert_restaurants_found s d existing hf]
    refine ⟨_, List.mem_map_of_mem _ hr, ?_, ?_⟩
    · by_cases hbe : (r.id == existing.id) = true
      · rw [if_pos hbe]
        show existing.id = idv
        have heq : r.id = existing.id := by simpa using hbe
        rw [← heq]
        exact hid
      · rw [if_neg hbe]
        exact hid
    · by_cases hbe : (r.id == existing.id) = true
      · rw [if_pos hbe]
        show (upsertUpdatedRecord existing d).inGuide = true
        simp [upsertUpdatedRecord, hd]
      · rw [if_neg hbe]
        exact hig

/-- C7 counterexample: a live-scrape fact (the Detail Extractor supplies no
in-guide field, so the `InGuide` pointer is nil and `UpsertRestaurantWithAward`
writes the default `true`) flips a stored restaurant's `InGuide` from false
to true — so the live crawl path does change `InGuide`. -/
theorem liveScrape_flips_inGuide_cx :
    ((processDetailPages
        ⟨[⟨1, "u", "R", "", "", "", "", "", "", "", "", "", false⟩], [], 2⟩
        [⟨"u", "R", "d", "a", "l", "la", "lo", "c", "f", "p", "w",
          none, 2024, "1 Star", "$", false, ""⟩]).restaurants.map
      (fun r => r.inGuide)) = [true] ∧
    (([⟨1, "u", "R", "", "", "", "", "", "", "", "", "", false⟩]
        : List Restaurant).map (fun r => r.inGuide)) = [false] ∧
    isLiveScrapeFact ⟨"u", "R", "d", "a", "l", "la", "lo", "c", "f", "p", "w",
      none, 2024, "1 Star", "$", false, ""⟩ :=
  ⟨by decide, by decide, rfl⟩

/-- C7 (amended): the live crawl path never clears `InGuide` — after any
sequence of live-scrape fact applications (facts whose `InGuide` pointer is
nil), every restaurant that was stored with `InGuide = true` still has
`InGuide = true`; but the path is not inert: a live fact for the URL of a
restaurant stored with `InGuide = false` resets it to the default `true`
(see the counterexample). -/
theorem liveScrape_preserves_inGuide_true (facts : List RestaurantData)
    (hl : ∀ d ∈ facts, d.inGuide = none) (s : Store) (idv : Nat)
    (h : ∃ r ∈ s.restaurants, r.id = idv ∧ r.inGuide = true) :
    ∃ q ∈ (processDetailPages s facts).restaurants, q.id = idv ∧ q.inGuide = true := by
  induction facts generalizing s with
  | nil => exact h
  | cons d facts ih =>
    exact ih (fun x hx => hl x (List.mem_cons_of_mem d hx))
      (UpsertRestaurantWithAward s d)
      (upsert_keeps_true s d (hl d (List.mem_cons_self d facts)) idv h)

/-- Witness for the amended C7: two live facts applied to a store holding an
in-guide restaurant leave it in guide. -/
theorem liveScrape_preserves_inGuide_true_witness :
    ∃ q ∈ (processDetailPages
        ⟨[⟨7, "u7", "R", "", "", "", "", "", "", "", "", "", true⟩], [], 8⟩
        [⟨"u7", "R", "d", "a", "l", "la", "lo", "c", "f", "p", "w",
          none, 2024, "1 Star", "$", false, ""⟩,
         ⟨"u9", "S", "d", "a", "l", "la", "lo", "c", "f", "p", "w2",
          none, 2024, "2 Stars", "$$", false, ""⟩]).restaurants,
      q.id = 7 ∧ q.inGuide = true :=
  liveScrape_preserves_inGuide_true
    [⟨"u7", "R", "d", "a", "l", "la", "lo", "c", "f", "p", "w",
      none, 2024, "1 Star", "$", false, ""⟩,
     ⟨"u9", "S", "d", "a", "l", "la", "lo", "c", "f", "p", "w2",
      none, 2024, "2 Stars", "$$", false, ""⟩]
    (by intro d hd; fin_cases hd <;> rfl)
    ⟨[⟨7, "u7", "R", "", "", "", "", "", "", "", "", "", true⟩], [], 8⟩
    7
    ⟨⟨7, "u7", "R", "", "", "", "", "", "", "", "", "", true⟩, by decide, rfl, rfl⟩

/-! ## Claim theorems: chronological file ordering -/

/-- C8: the processor handles dataset files in ascending date order — for
any submission order, `sortFilesByDate` returns a permutation of the files
that is strictly ascending in the extracted date (filename `YYYY-MM-DD`
pattern, falling back to the modification time) whenever the dates are
pairwise distinct. -/
theorem sortFilesByDate_chronological (files : List DatasetFile)
    (h : (files.map ParseDateFromFilenameWithFallback).Nodup) :
    List.Perm (sortFilesByDate files) files ∧
    ((sortFilesByDate files).map ParseDateFromFilenameWithFallback).Pairwise (· < ·) := by
  have hperm : List.Perm (sortFilesByDate files) files :=
    List.mergeSort_perm files _
  refine ⟨hperm, ?_⟩
  have hsorted : (List.mergeSort files (fun a b =>
      decide (ParseDateFromFilenameWithFallback a ≤ ParseDateFromFilenameWithFallback b))).Pairwise
      (fun a b =>
        decide (ParseDateFromFilenameWithFallback a ≤ ParseDateFromFilenameWithFallback b)
          = true) := by
    apply List.sorted_mergeSort
    · intro a b c hab hbc
      simp only [decide_eq_true_eq] at *
      exact Nat.le_trans hab hbc
    · intro a b
      simp only [Bool.or_eq_true, decide_eq_true_eq]
      exact Nat.le_total _ _
  have hle : ((sortFilesByDate files).map ParseDateFromFilenameWithFallback).Pairwise (· ≤ ·) := by
    rw [List.pairwise_map]
    exact List.Pairwise.imp (fun hab => by simpa using hab) hsorted
  have hnd : ((sortFilesByDate files).map ParseDateFromFilenameWithFallback).Nodup :=
    (List.Perm.nodup_iff (hperm.map ParseDateFromFilenameWithFallback)).mpr h
  exact List.Pairwise.imp₂ (fun a b hab hne => Nat.lt_of_le_of_ne hab hne) hle hnd

/-- Witness for C8: the three spec files submitted out of order come out in
ascending date order (a permutation, pairwise strictly increasing dates). -/
theorem sortFilesByDate_chronological_witness :
    List.Perm
      (sortFilesByDate
        [⟨"2023-06-01_guide.csv", 0⟩, ⟨"2021-01-01_guide.csv", 0⟩,
         ⟨"2025-03-01_guide.csv", 0⟩])
      [⟨"2023-06-01_guide.csv", 0⟩, ⟨"2021-01-01_guide.csv", 0⟩,
       ⟨"2025-03-01_guide.csv", 0⟩] ∧
    ((sortFilesByDate
        [⟨"2023-06-01_guide.csv", 0⟩, ⟨"2021-01-01_guide.csv", 0⟩,
         ⟨"2025-03-01_guide.csv", 0⟩]).map ParseDateFromFilenameWithFallback).Pairwise
      (· < ·) :=
  sortFilesByDate_chronological
    [⟨"2023-06-01_guide.csv", 0⟩, ⟨"2021-01-01_guide.csv", 0⟩,
     ⟨"2025-03-01_guide.csv", 0⟩] (by decide)

/-! ## Claim theorems: distinction classification -/

theorem toNat_ofNat_valid (n : Nat) (h : n < 55296) : (Char.ofNat n).toNat = n := by
  have hv : n.isValidChar := Or.inl h
  rw [Char.ofNat, dif_pos hv]
  rfl

theorem toLowerChar_idem (c : Char) : toLowerChar (toLowerChar c) = toLowerChar c := by
  by_cases h : 65 ≤ c.toNat ∧ c.toNat ≤ 90
  · have h1 : toLowerChar c = Char.ofNat (c.toNat + 32) := by
      unfold toLowerChar
      rw [if_pos h]
    have hno : ¬(65 ≤ (Char.ofNat (c.toNat + 32)).toNat ∧
        (Char.ofNat (c.toNat + 32)).toNat ≤ 90) := by
      rw [toNat_ofNat_valid (c.toNat + 32) (by omega)]
      omega
    rw [h1]
    unfold toLowerChar
    rw [if_neg hno]
  · have h1 : toLowerChar c = c := by
      unfold toLowerChar
      rw [if_neg h]
    rw [h1, h1]

theorem lowerStr_idem (l : List Char) : lowerStr (lowerStr l) = lowerStr l := by
  unfold lowerStr
  rw [List.map_map]
  exact List.map_congr_left (fun c _ => toLowerChar_idem c)

/-- C9: `ParseDistinction` maps "THREE MICHELIN STARS" to the 3-star label,
"1 star" to the 1-star label, "Bib Gourmand award" to the Bib Gourmand
label; any string matching none of the star/bib/selected patterns falls to
the default `SelectedRestaurants`; and classification is case-insensitive
(lowercasing the input never changes the result). -/
theorem parseDistinction_classification :
    ParseDistinction "THREE MICHELIN STARS" = ThreeStars ∧
    ParseDistinction "1 star" = OneStar ∧
    ParseDistinction "Bib Gourmand award" = BibGourmand ∧
    (∀ s : String,
      re3Stars (cleanDistinction s) = false →
      re2Stars (cleanDistinction s) = false →
      re1Star (cleanDistinction s) = false →
      reBibGourmand (cleanDistinction s) = false →
      reSelected (cleanDistinction s) = false →
      ParseDistinction s = SelectedRestaurants) ∧
    (∀ s : String, ParseDistinction (String.mk (lowerStr s.toList)) = ParseDistinction s) := by
  refine ⟨by decide, by decide, by decide, ?_, ?_⟩
  · intro s h3 h2 h1 hb hsel
    unfold ParseDistinction
    simp [h3, h2, h1, hb, hsel]
  · intro s
    unfold ParseDistinction cleanDistinction
    rw [show (String.mk (lowerStr s.toList)).toList = lowerStr s.toList from rfl,
      lowerStr_idem]

/-- Witness for C9: an arbitrary unmatched string falls to the default
`SelectedRestaurants` classification. -/
theorem parseDistinction_classification_witness :
    ParseDistinction "no match here" = SelectedRestaurants :=
  parseDistinction_classification.2.2.2.1 "no match here"
    (by decide) (by decide) (by decide) (by decide) (by decide)

/-! ## Claim theorems: fetch retry and backoff -/

/-- C10: the error handler retries an HTTP 403 with cache cleared and
exponential backoff `8s × attempt²` until the `MaxRetry` ceiling, then
abandons the URL; an already-visited error is skipped with no retry and no
cache clear; any other failure retries with cache cleared and linear backoff
`attempt × Delay` under the same ceiling, then abandons; and `ClearCache`
removes every cache entry stored for the URL. -/
theorem errorHandler_backoff_policy (cfg : ScraperConfig) (status : Nat)
    (v : Bool) (attempt : Nat) :
    (attempt < cfg.maxRetry →
      createErrorHandler cfg 403 v attempt
        = ErrorDecision.retry true (attempt * attempt * 8 * second) (attempt + 1)) ∧
    (cfg.maxRetry ≤ attempt →
      createErrorHandler cfg 403 v attempt = ErrorDecision.abandon attempt) ∧
    (status ≠ 403 →
      createErrorHandler cfg status true attempt = ErrorDecision.skip) ∧
    (status ≠ 403 → attempt < cfg.maxRetry →
      createErrorHandler cfg status false attempt
        = ErrorDecision.retry true (attempt * cfg.delay) (attempt + 1)) ∧
    (status ≠ 403 → cfg.maxRetry ≤ attempt →
      createErrorHandler cfg status false attempt = ErrorDecision.abandon attempt) ∧
    (∀ (cache : List (String × String)) (url : String),
      ∀ e ∈ ClearCache cache url, e.1 ≠ url) := by
  refine ⟨?_, ?_, ?_, ?_, ?_, ?_⟩
  · intro hlt
    simp [createErrorHandler, hlt]
  · intro hge
    simp [createErrorHandler, Nat.not_lt_of_le hge]
  · intro hne
    have hb : (status == 403) = false := by simpa using hne
    simp [createErrorHandler, hb]
  · intro hne hlt
    have hb : (status == 403) = false := by simpa using hne
    simp [createErrorHandler, hb, hlt]
  · intro hne hge
    have hb : (status == 403) = false := by simpa using hne
    simp [createErrorHandler, hb, Nat.not_lt_of_le hge]
  · intro cache url e he
    have := List.mem_filter.mp he
    simpa using this.2

/-- Witness for C10: with `MaxRetry = 3`, a 403 on attempt 2 retries after
`2² × 8s` with the cache cleared. -/
theorem errorHandler_backoff_policy_witness :
    2 < 3 ∧
    createErrorHandler ⟨3, 1000000000⟩ 403 false 2
      = ErrorDecision.retry true (2 * 2 * 8 * second) 3 :=
  ⟨by decide, (errorHandler_backoff_policy ⟨3, 1000000000⟩ 403 false 2).1 (by decide)⟩

end Michelin
